import Mathlib

/-!
Verification of the tool-execution bridge of the llama-stack ReAct HR agent
(`react-agent/agent.py`, `HRReActAgent.execute_tool`).

The method receives a tool name and a parameter mapping, issues at most one
HTTP call against the HR API, and returns a result mapping.  We embed it as a
pure function over an explicit HTTP environment (an oracle mapping each
request to either a response or a raised transport fault), with Python
exceptions modelled by `Except` and JSON values by an inductive `Json` type.
Parameter values are strings, as declared by the tool schemas in the source
(`"type": "string"` for every declared parameter).
-/

namespace HRReact

/-- JSON values, as produced by `response.json()` and placed into result
mappings (`None` is `Json.null`, Python `True` is `Json.bool true`, etc.). -/
inductive Json where
  | null : Json
  | bool : Bool → Json
  | num : Int → Json
  | str : String → Json
  | arr : List Json → Json
  | obj : List (String × Json) → Json

/-- Python type name of a JSON value, as it appears in an
`AttributeError` message. -/
def Json.typeName : Json → String
  | .null => "NoneType"
  | .bool _ => "bool"
  | .num _ => "int"
  | .str _ => "str"
  | .arr _ => "list"
  | .obj _ => "dict"

/-- Exceptions that can be raised inside `execute_tool`'s `try` block:
`KeyError` from `parameters[...]`, `AttributeError` from calling `.get` on a
non-dict, a transport fault raised by `httpx` (connection error, timeout),
and a JSON decode error from `response.json()`. -/
inductive PyError where
  | keyError : String → PyError
  | attrError : String → PyError
  | transport : String → PyError
  | jsonDecode : String → PyError

/-- `str(e)` for each modelled exception; `str(KeyError(k))` is the repr of
the key, i.e. the key wrapped in single quotes. -/
def PyError.toText : PyError → String
  | .keyError k => "'" ++ k ++ "'"
  | .attrError t => "'" ++ t ++ "' object has no attribute " ++ "'get'"
  | .transport m => m
  | .jsonDecode m => m

/-- First-match lookup in a JSON object's field list (Python dict lookup;
dict keys are unique, an association list's first match models it). -/
def jsonLookup (fs : List (String × Json)) (k : String) : Option Json :=
  (fs.find? (fun p => p.1 == k)).map Prod.snd

/-- `data.get(k, d)` on a parsed JSON object. -/
def jsonGetD (fs : List (String × Json)) (k : String) (d : Json) : Json :=
  (jsonLookup fs k).getD d

/-- Lookup in the `parameters` mapping (`parameters[k]` yields `some`
or raises `KeyError`; `parameters.get(k, d)` uses `getD`). -/
def lookupParam (ps : List (String × String)) (k : String) : Option String :=
  (ps.find? (fun p => p.1 == k)).map Prod.snd

/-- An HTTP request issued through the `httpx` client: `client.get(url)` or
`client.post(url, json=body)`. -/
inductive HttpRequest where
  | get : String → HttpRequest
  | post : String → Json → HttpRequest

/-- An HTTP response as seen through `httpx`: status code, raw body text,
and the outcome of `response.json()` (which raises on a malformed body). -/
structure HttpResponse where
  status_code : Nat
  text : String
  jsonBody : Except PyError Json

/-- Outcome of issuing a request: a response, or a raised transport fault. -/
inductive HttpOutcome where
  | ok : HttpResponse → HttpOutcome
  | exn : PyError → HttpOutcome

/-- The HTTP world `execute_tool` runs against: what each request returns. -/
def Env : Type := HttpRequest → HttpOutcome

/-- A result mapping (`Dict[str, Any]`) returned by `execute_tool`. -/
def ResultMap : Type := List (String × Json)

/-- The body of `execute_tool`'s `try` block (`agent.py` lines 156-203),
returning the produced mapping or the raised exception, paired with the
list of HTTP requests issued.  Statement order follows the source: for
`hr_vacation_balance`, extract `employee_id`, issue the GET, branch on
status 200; for `hr_vacation_request`, extract the three required keys in
order, default `reason`, build `request_data` with `status = "approved"`,
issue the POST, branch on status 201; otherwise return the unknown-tool
error mapping without touching the network. -/
def executeToolBody (base_url : String) (env : Env) (tool_name : String)
    (parameters : List (String × String)) :
    Except PyError ResultMap × List HttpRequest :=
  if tool_name == "hr_vacation_balance" then
    match lookupParam parameters "employee_id" with
    | none => (.error (.keyError "employee_id"), [])
    | some employee_id =>
      let req := HttpRequest.get (base_url ++ "/api/vacations/" ++ employee_id)
      match env req with
      | .exn e => (.error e, [req])
      | .ok response =>
        if response.status_code == 200 then
          match response.jsonBody with
          | .error e => (.error e, [req])
          | .ok (.obj fs) =>
            (.ok [("employee_id", .str employee_id),
                  ("vacation_balance", jsonGetD fs "balance" (.num 0)),
                  ("total_days", jsonGetD fs "total_days" (.num 0)),
                  ("used_days", jsonGetD fs "used_days" (.num 0))], [req])
          | .ok data => (.error (.attrError data.typeName), [req])
        else
          (.ok [("error",
                 .str ("Failed to get vacation balance: " ++ response.text))],
           [req])
  else if tool_name == "hr_vacation_request" then
    match lookupParam parameters "employee_id" with
    | none => (.error (.keyError "employee_id"), [])
    | some employee_id =>
      match lookupParam parameters "start_date" with
      | none => (.error (.keyError "start_date"), [])
      | some start_date =>
        match lookupParam parameters "end_date" with
        | none => (.error (.keyError "end_date"), [])
        | some end_date =>
          let reason := (lookupParam parameters "reason").getD "Personal time off"
          let request_data : Json := .obj
            [("employee_id", .str employee_id),
             ("start_date", .str start_date),
             ("end_date", .str end_date),
             ("reason", .str reason),
             ("status", .str "approved")]
          let req := HttpRequest.post (base_url ++ "/api/vacations") request_data
          match env req with
          | .exn e => (.error e, [req])
          | .ok response =>
            if response.status_code == 201 then
              match response.jsonBody with
              | .error e => (.error e, [req])
              | .ok (.obj fs) =>
                (.ok [("success", .bool true),
                      ("message", .str "Vacation request created successfully"),
                      ("booking_id", (jsonLookup fs "id").getD .null),
                      ("employee_id", .str employee_id),
                      ("start_date", .str start_date),
                      ("end_date", .str end_date)], [req])
              | .ok data => (.error (.attrError data.typeName), [req])
            else
              (.ok [("error",
                     .str ("Failed to create vacation request: "
                           ++ response.text))], [req])
  else
    (.ok [("error", .str ("Unknown tool: " ++ tool_name))], [])

/-- Result of one `execute_tool` invocation: the returned mapping and the
trace of HTTP requests issued during the call. -/
structure ToolExecResult where
  result : ResultMap
  requests : List HttpRequest

/-- `HRReActAgent.execute_tool` (`agent.py` lines 153-207): run the body and
catch every exception, converting it into `{"error": str(e)}`. -/
def execute_tool (base_url : String) (env : Env) (tool_name : String)
    (parameters : List (String × String)) : ToolExecResult :=
  match executeToolBody base_url env tool_name parameters with
  | (.ok m, reqs) => ⟨m, reqs⟩
  | (.error e, reqs) => ⟨[("error", .str e.toText)], reqs⟩

/-- Does a result mapping contain the given key? -/
def hasKey (m : ResultMap) (k : String) : Bool :=
  m.any (fun p => p.1 == k)

/-- A stub HR service: every request gets the same response. -/
def stubEnv (r : HttpResponse) : Env := fun _ => .ok r

/-- A faulty network: every request raises the given exception. -/
def faultEnv (e : PyError) : Env := fun _ => .exn e

/-- The JSON body `execute_tool` sends in the booking POST, as built from
the parameter mapping: the three required values, `reason` defaulted to
`"Personal time off"`, and `status` hard-coded to `"approved"`. -/
def bookingBody (parameters : List (String × String))
    (eid sd ed : String) : Json :=
  .obj [("employee_id", .str eid),
        ("start_date", .str sd),
        ("end_date", .str ed),
        ("reason", .str ((lookupParam parameters "reason").getD
                           "Personal time off")),
        ("status", .str "approved")]

/-- The success mapping returned after a 201 booking response whose JSON
body is the object `fs`. -/
def bookingSuccess (fs : List (String × Json)) (eid sd ed : String) :
    ResultMap :=
  [("success", .bool true),
   ("message", .str "Vacation request created successfully"),
   ("booking_id", (jsonLookup fs "id").getD .null),
   ("employee_id", .str eid),
   ("start_date", .str sd),
   ("end_date", .str ed)]

/-- The balance success mapping returned after a 200 response whose JSON
body is the object `fs`. -/
def balanceSuccess (fs : List (String × Json)) (eid : String) : ResultMap :=
  [("employee_id", .str eid),
   ("vacation_balance", jsonGetD fs "balance" (.num 0)),
   ("total_days", jsonGetD fs "total_days" (.num 0)),
   ("used_days", jsonGetD fs "used_days" (.num 0))]

/-- When the body runs without raising, `execute_tool` returns its mapping
unchanged. -/
lemma execute_tool_result_of_ok {base : String} {env : Env}
    {tool_name : String} {parameters : List (String × String)}
    {m : ResultMap}
    (h : (executeToolBody base env tool_name parameters).1 = .ok m) :
    (execute_tool base env tool_name parameters).result = m := by
  unfold execute_tool
  rcases hEq : executeToolBody base env tool_name parameters with ⟨res, reqs⟩
  rw [hEq] at h
  cases res with
  | ok m2 => simp at h; subst h; rfl
  | error e => simp at h

/-- When the body raises, `execute_tool` returns the converted error
mapping. -/
lemma execute_tool_result_of_error {base : String} {env : Env}
    {tool_name : String} {parameters : List (String × String)}
    {e : PyError}
    (h : (executeToolBody base env tool_name parameters).1 = .error e) :
    (execute_tool base env tool_name parameters).result =
      [("error", .str e.toText)] := by
  unfold execute_tool
  rcases hEq : executeToolBody base env tool_name parameters with ⟨res, reqs⟩
  rw [hEq] at h
  cases res with
  | ok m => simp at h
  | error e2 => simp at h; subst h; rfl

/-- The requests `execute_tool` reports are exactly those of its body: the
`except` clause drops no part of the trace. -/
lemma execute_tool_requests_eq (base : String) (env : Env)
    (tool_name : String) (parameters : List (String × String)) :
    (execute_tool base env tool_name parameters).requests =
      (executeToolBody base env tool_name parameters).2 := by
  unfold execute_tool
  rcases hEq : executeToolBody base env tool_name parameters with ⟨res, reqs⟩
  cases res <;> rfl

/-- Exhaustive case analysis of one invocation: the body either raises,
or returns a single-entry error mapping, or returns one of the two success
mappings. -/
lemma executeToolBody_shapes (base : String) (env : Env)
    (tool_name : String) (parameters : List (String × String)) :
    (∃ e, (executeToolBody base env tool_name parameters).1 = .error e) ∨
    (∃ s, (executeToolBody base env tool_name parameters).1 =
       .ok [("error", Json.str s)]) ∨
    (∃ fs eid, (executeToolBody base env tool_name parameters).1 =
       .ok (balanceSuccess fs eid)) ∨
    (∃ fs eid sd ed, (executeToolBody base env tool_name parameters).1 =
       .ok (bookingSuccess fs eid sd ed)) := by
  unfold executeToolBody
  dsimp only
  repeat' split
  all_goals first
    | exact Or.inl ⟨_, rfl⟩
    | exact Or.inr (Or.inl ⟨_, rfl⟩)
    | exact Or.inr (Or.inr (Or.inl ⟨_, _, rfl⟩))
    | exact Or.inr (Or.inr (Or.inr ⟨_, _, _, _, rfl⟩))

/-- The body issues at most one HTTP request, on every path. -/
lemma executeToolBody_trace_short (base : String) (env : Env)
    (tool_name : String) (parameters : List (String × String)) :
    (executeToolBody base env tool_name parameters).2.length ≤ 1 := by
  unfold executeToolBody
  dsimp only
  repeat' split
  all_goals simp

/-- C1: a balance lookup whose GET returns 200 with a JSON object body
yields exactly the four-field mapping `employee_id`, `vacation_balance`
(body `balance`, default 0), `total_days` (default 0), `used_days`
(default 0), and no other keys. -/
theorem c1_balance_200_exact (base : String) (env : Env)
    (params : List (String × String)) (eid : String)
    (r : HttpResponse) (fs : List (String × Json))
    (hp : lookupParam params "employee_id" = some eid)
    (henv : env (.get (base ++ "/api/vacations/" ++ eid)) = .ok r)
    (hst : r.status_code = 200)
    (hj : r.jsonBody = .ok (.obj fs)) :
    (execute_tool base env "hr_vacation_balance" params).result =
      [("employee_id", .str eid),
       ("vacation_balance", jsonGetD fs "balance" (.num 0)),
       ("total_days", jsonGetD fs "total_days" (.num 0)),
       ("used_days", jsonGetD fs "used_days" (.num 0))] := by
  unfold execute_tool executeToolBody
  simp [hp, henv, hst, hj]

/-- Witness for C1: the spec scenario, `EMP001` against a stub returning
200 `{"balance": 10, "total_days": 20, "used_days": 10}`. -/
theorem c1_balance_200_exact_witness :
    (execute_tool "http://hr-api:3000"
        (stubEnv ⟨200, "",
          .ok (.obj [("balance", .num 10), ("total_days", .num 20),
                     ("used_days", .num 10)])⟩)
        "hr_vacation_balance" [("employee_id", "EMP001")]).result =
      [("employee_id", .str "EMP001"), ("vacation_balance", .num 10),
       ("total_days", .num 20), ("used_days", .num 10)] :=
  c1_balance_200_exact "http://hr-api:3000"
    (stubEnv ⟨200, "",
      .ok (.obj [("balance", .num 10), ("total_days", .num 20),
                 ("used_days", .num 10)])⟩)
    [("employee_id", "EMP001")] "EMP001"
    ⟨200, "",
      .ok (.obj [("balance", .num 10), ("total_days", .num 20),
                 ("used_days", .num 10)])⟩
    [("balance", .num 10), ("total_days", .num 20), ("used_days", .num 10)]
    rfl rfl rfl rfl

/-- C3: `execute_tool` is total (it always returns a mapping) and every
exception raised inside its body — transport fault, missing parameter,
malformed JSON, and the rest — is caught and turned into the mapping
`{"error": str(e)}` with the same request trace. -/
theorem c3_exceptions_become_error_mapping (base : String) (env : Env)
    (tool_name : String) (parameters : List (String × String))
    (e : PyError)
    (h : (executeToolBody base env tool_name parameters).1 = .error e) :
    (execute_tool base env tool_name parameters).result =
      [("error", .str e.toText)] := by
  unfold execute_tool
  rcases hEq : executeToolBody base env tool_name parameters with ⟨res, reqs⟩
  rw [hEq] at h
  cases res with
  | ok m => simp at h
  | error e2 => simp at h; subst h; rfl

/-- Witness for C3: a connection fault during a balance lookup surfaces as
`{"error": "Connection refused"}`, not as an exception. -/
theorem c3_exceptions_become_error_mapping_witness :
    (execute_tool "http://hr-api:3000"
        (faultEnv (.transport "Connection refused"))
        "hr_vacation_balance" [("employee_id", "EMP001")]).result =
      [("error", .str "Connection refused")] :=
  c3_exceptions_become_error_mapping "http://hr-api:3000"
    (faultEnv (.transport "Connection refused"))
    "hr_vacation_balance" [("employee_id", "EMP001")]
    (.transport "Connection refused") rfl

/-- C6: an unknown tool name yields exactly `{"error": "Unknown tool: " +
tool_name}`, raises nothing, and issues no HTTP request. -/
theorem c6_unknown_tool (base : String) (env : Env) (tool_name : String)
    (parameters : List (String × String))
    (h1 : tool_name ≠ "hr_vacation_balance")
    (h2 : tool_name ≠ "hr_vacation_request") :
    execute_tool base env tool_name parameters =
      ⟨[("error", .str ("Unknown tool: " ++ tool_name))], []⟩ := by
  unfold execute_tool executeToolBody
  simp [h1, h2]

/-- Witness for C6: the tool name `hr_fire_employee` is rejected without
any HTTP traffic. -/
theorem c6_unknown_tool_witness :
    execute_tool "http://hr-api:3000" (stubEnv ⟨200, "", .ok .null⟩)
        "hr_fire_employee" [] =
      ⟨[("error", .str "Unknown tool: hr_fire_employee")], []⟩ :=
  c6_unknown_tool _ _ _ _ (by decide) (by decide)

/-- C10: a required parameter missing from the mapping produces, with no
HTTP request issued, the mapping `{"error": s}` where `s` is `str` of the
`KeyError` for that key — the key in single quotes — and no exception
escapes.  Stated for `hr_vacation_balance` missing `employee_id` and for
each required key of `hr_vacation_request`, honouring the source's
extraction order (`employee_id`, then `start_date`, then `end_date`). -/
theorem c10_missing_required_key (base : String) (env : Env)
    (parameters : List (String × String)) :
    (lookupParam parameters "employee_id" = none →
      execute_tool base env "hr_vacation_balance" parameters =
        ⟨[("error", .str "'employee_id'")], []⟩ ∧
      execute_tool base env "hr_vacation_request" parameters =
        ⟨[("error", .str "'employee_id'")], []⟩) ∧
    (∀ eid, lookupParam parameters "employee_id" = some eid →
      lookupParam parameters "start_date" = none →
      execute_tool base env "hr_vacation_request" parameters =
        ⟨[("error", .str "'start_date'")], []⟩) ∧
    (∀ eid sd, lookupParam parameters "employee_id" = some eid →
      lookupParam parameters "start_date" = some sd →
      lookupParam parameters "end_date" = none →
      execute_tool base env "hr_vacation_request" parameters =
        ⟨[("error", .str "'end_date'")], []⟩) := by
  refine ⟨fun h => ⟨?_, ?_⟩, fun eid h1 h2 => ?_, fun eid sd h1 h2 h3 => ?_⟩
  all_goals unfold execute_tool executeToolBody
  · simp [h]; rfl
  · simp [h]; rfl
  · simp [h1, h2]; rfl
  · simp [h1, h2, h3]; rfl

/-- Witness for C10: empty parameters for the balance tool, and booking
parameter mappings missing `start_date` and `end_date` respectively. -/
theorem c10_missing_required_key_witness :
    execute_tool "http://hr-api:3000" (stubEnv ⟨200, "", .ok .null⟩)
        "hr_vacation_balance" [] = ⟨[("error", .str "'employee_id'")], []⟩ ∧
    execute_tool "http://hr-api:3000" (stubEnv ⟨200, "", .ok .null⟩)
        "hr_vacation_request" [("employee_id", "EMP001")] =
      ⟨[("error", .str "'start_date'")], []⟩ ∧
    execute_tool "http://hr-api:3000" (stubEnv ⟨200, "", .ok .null⟩)
        "hr_vacation_request"
        [("employee_id", "EMP001"), ("start_date", "2025-07-02")] =
      ⟨[("error", .str "'end_date'")], []⟩ :=
  ⟨((c10_missing_required_key "http://hr-api:3000"
       (stubEnv ⟨200, "", .ok .null⟩) []).1 rfl).1,
   (c10_missing_required_key "http://hr-api:3000"
       (stubEnv ⟨200, "", .ok .null⟩) [("employee_id", "EMP001")]).2.1
     "EMP001" rfl rfl,
   (c10_missing_required_key "http://hr-api:3000"
       (stubEnv ⟨200, "", .ok .null⟩)
       [("employee_id", "EMP001"), ("start_date", "2025-07-02")]).2.2
     "EMP001" "2025-07-02" rfl rfl rfl⟩

/-- C2: with the required keys present and the POST answered by a response
whose body parses as a JSON object, the result is the success mapping
(`success: true`, the fixed message, `booking_id` from the body's `id`,
and the echoed dates) if and only if the status is 201; every other status
yields `{"error": "Failed to create vacation request: " + body_text}`. -/
theorem c2_request_success_iff_201 (base : String) (env : Env)
    (params : List (String × String)) (eid sd ed : String)
    (r : HttpResponse) (fs : List (String × Json))
    (hp1 : lookupParam params "employee_id" = some eid)
    (hp2 : lookupParam params "start_date" = some sd)
    (hp3 : lookupParam params "end_date" = some ed)
    (henv : env (.post (base ++ "/api/vacations") (bookingBody params eid sd ed))
              = .ok r)
    (hj : r.jsonBody = .ok (.obj fs)) :
    ((execute_tool base env "hr_vacation_request" params).result =
        bookingSuccess fs eid sd ed ↔ r.status_code = 201) ∧
    (r.status_code ≠ 201 →
      (execute_tool base env "hr_vacation_request" params).result =
        [("error", .str ("Failed to create vacation request: " ++ r.text))]) := by
  have hb : env (.post (base ++ "/api/vacations")
      (.obj [("employee_id", .str eid), ("start_date", .str sd),
             ("end_date", .str ed),
             ("reason", .str ((lookupParam params "reason").getD
                                "Personal time off")),
             ("status", .str "approved")])) = .ok r := henv
  by_cases hst : r.status_code = 201
  · constructor
    · unfold execute_tool executeToolBody
      simp [hp1, hp2, hp3, hb, hst, hj, bookingSuccess]
    · exact fun habs => absurd hst habs
  · have hres : (execute_tool base env "hr_vacation_request" params).result =
        [("error", .str ("Failed to create vacation request: " ++ r.text))] := by
      unfold execute_tool executeToolBody
      simp [hp1, hp2, hp3, hb, hst]
    refine ⟨⟨fun habs => ?_, fun h201 => absurd h201 hst⟩, fun _ => hres⟩
    rw [hres] at habs
    have hlen := congrArg List.length habs
    simp [bookingSuccess] at hlen

/-- Witness for C2: the spec scenario, a booking for `EMP001` against a
stub returning 201 `{"id": "bk-1"}` produces the success mapping with
`booking_id = "bk-1"`. -/
theorem c2_request_success_iff_201_witness :
    (execute_tool "http://hr-api:3000"
        (stubEnv ⟨201, "", .ok (.obj [("id", .str "bk-1")])⟩)
        "hr_vacation_request"
        [("employee_id", "EMP001"), ("start_date", "2025-07-02"),
         ("end_date", "2025-07-03")]).result =
      [("success", .bool true),
       ("message", .str "Vacation request created successfully"),
       ("booking_id", .str "bk-1"),
       ("employee_id", .str "EMP001"),
       ("start_date", .str "2025-07-02"),
       ("end_date", .str "2025-07-03")] :=
  (c2_request_success_iff_201 "http://hr-api:3000"
      (stubEnv ⟨201, "", .ok (.obj [("id", .str "bk-1")])⟩)
      [("employee_id", "EMP001"), ("start_date", "2025-07-02"),
       ("end_date", "2025-07-03")]
      "EMP001" "2025-07-02" "2025-07-03"
      ⟨201, "", .ok (.obj [("id", .str "bk-1")])⟩
      [("id", .str "bk-1")]
      rfl rfl rfl rfl rfl).1.mpr rfl

/-- C4: every mapping `execute_tool` returns carries the key `error` XOR
the success fields: either `error` is present and none of
`vacation_balance`, `success`, `booking_id` is, or `error` is absent and
at least one of them is present — never both kinds, never neither. -/
theorem c4_error_xor_success (base : String) (env : Env) (tool_name : String)
    (parameters : List (String × String)) :
    (hasKey (execute_tool base env tool_name parameters).result "error" = true ∧
     hasKey (execute_tool base env tool_name parameters).result "vacation_balance" = false ∧
     hasKey (execute_tool base env tool_name parameters).result "success" = false ∧
     hasKey (execute_tool base env tool_name parameters).result "booking_id" = false) ∨
    (hasKey (execute_tool base env tool_name parameters).result "error" = false ∧
     (hasKey (execute_tool base env tool_name parameters).result "vacation_balance" = true ∨
      hasKey (execute_tool base env tool_name parameters).result "success" = true)) := by
  rcases executeToolBody_shapes base env tool_name parameters with
    ⟨e, h⟩ | ⟨s, h⟩ | ⟨fs, eid, h⟩ | ⟨fs, eid, sd, ed, h⟩
  · rw [execute_tool_result_of_error h]
    exact Or.inl (by simp [hasKey])
  · rw [execute_tool_result_of_ok h]
    exact Or.inl (by simp [hasKey])
  · rw [execute_tool_result_of_ok h]
    exact Or.inr (by simp [hasKey, balanceSuccess])
  · rw [execute_tool_result_of_ok h]
    exact Or.inr (by simp [hasKey, bookingSuccess])

/-- C5: with the three required keys present, the booking call issues
exactly one POST to `{base_url}/api/vacations` whose JSON body is exactly
`{employee_id, start_date, end_date, reason, status}`, with `reason` taken
from the parameters when present and `"Personal time off"` otherwise, and
`status` always `"approved"` — whatever the HR service then answers. -/
theorem c5_post_body_exact (base : String) (env : Env)
    (params : List (String × String)) (eid sd ed : String)
    (hp1 : lookupParam params "employee_id" = some eid)
    (hp2 : lookupParam params "start_date" = some sd)
    (hp3 : lookupParam params "end_date" = some ed) :
    (execute_tool base env "hr_vacation_request" params).requests =
      [HttpRequest.post (base ++ "/api/vacations") (bookingBody params eid sd ed)] := by
  rw [execute_tool_requests_eq]
  unfold executeToolBody
  simp only [hp1, hp2, hp3]
  repeat' split
  all_goals simp_all [bookingBody]

/-- Witness for C5: a booking request without a `reason` parameter POSTs a
body whose `reason` is `"Personal time off"` and whose `status` is
`"approved"`. -/
theorem c5_post_body_exact_witness :
    (execute_tool "http://hr-api:3000"
        (stubEnv ⟨201, "", .ok (.obj [("id", .str "bk-1")])⟩)
        "hr_vacation_request"
        [("employee_id", "EMP001"), ("start_date", "2025-07-02"),
         ("end_date", "2025-07-03")]).requests =
      [HttpRequest.post "http://hr-api:3000/api/vacations"
        (.obj [("employee_id", .str "EMP001"),
               ("start_date", .str "2025-07-02"),
               ("end_date", .str "2025-07-03"),
               ("reason", .str "Personal time off"),
               ("status", .str "approved")])] :=
  c5_post_body_exact "http://hr-api:3000"
    (stubEnv ⟨201, "", .ok (.obj [("id", .str "bk-1")])⟩)
    [("employee_id", "EMP001"), ("start_date", "2025-07-02"),
     ("end_date", "2025-07-03")]
    "EMP001" "2025-07-02" "2025-07-03" rfl rfl rfl

/-- C7: a balance lookup answered with any status other than 200 returns
`{"error": "Failed to get vacation balance: " + body_text}` and, in
particular, a mapping with an `error` key and no `vacation_balance` key. -/
theorem c7_balance_non200_error (base : String) (env : Env)
    (params : List (String × String)) (eid : String) (r : HttpResponse)
    (hp : lookupParam params "employee_id" = some eid)
    (henv : env (.get (base ++ "/api/vacations/" ++ eid)) = .ok r)
    (hst : r.status_code ≠ 200) :
    (execute_tool base env "hr_vacation_balance" params).result =
      [("error", .str ("Failed to get vacation balance: " ++ r.text))] ∧
    hasKey (execute_tool base env "hr_vacation_balance" params).result
      "vacation_balance" = false := by
  have hres : (execute_tool base env "hr_vacation_balance" params).result =
      [("error", .str ("Failed to get vacation balance: " ++ r.text))] := by
    unfold execute_tool executeToolBody
    simp [hp, henv, hst]
  exact ⟨hres, by rw [hres]; simp [hasKey]⟩

/-- Witness for C7: a 404 with body `Employee not found` yields the error
mapping and no balance field. -/
theorem c7_balance_non200_error_witness :
    (execute_tool "http://hr-api:3000"
        (stubEnv ⟨404, "Employee not found", .ok .null⟩)
        "hr_vacation_balance" [("employee_id", "EMP999")]).result =
      [("error", .str "Failed to get vacation balance: Employee not found")] ∧
    hasKey (execute_tool "http://hr-api:3000"
        (stubEnv ⟨404, "Employee not found", .ok .null⟩)
        "hr_vacation_balance" [("employee_id", "EMP999")]).result
      "vacation_balance" = false :=
  c7_balance_non200_error "http://hr-api:3000"
    (stubEnv ⟨404, "Employee not found", .ok .null⟩)
    [("employee_id", "EMP999")] "EMP999"
    ⟨404, "Employee not found", .ok .null⟩
    rfl rfl (by decide)

/-- C8: one invocation of `execute_tool` issues at most one HTTP request,
for every tool name, parameter mapping and HTTP world — in particular a
failed request is never retried within the invocation. -/
theorem c8_at_most_one_request (base : String) (env : Env) (tool_name : String)
    (parameters : List (String × String)) :
    (execute_tool base env tool_name parameters).requests.length ≤ 1 := by
  rw [execute_tool_requests_eq]
  exact executeToolBody_trace_short base env tool_name parameters

/-- C9: a booking POST answered 201 with a JSON object body lacking the
key `id` still succeeds, with `booking_id` set to `None` (`null`). -/
theorem c9_booking_id_null_when_absent (base : String) (env : Env)
    (params : List (String × String)) (eid sd ed : String)
    (r : HttpResponse) (fs : List (String × Json))
    (hp1 : lookupParam params "employee_id" = some eid)
    (hp2 : lookupParam params "start_date" = some sd)
    (hp3 : lookupParam params "end_date" = some ed)
    (henv : env (.post (base ++ "/api/vacations") (bookingBody params eid sd ed))
              = .ok r)
    (hst : r.status_code = 201)
    (hj : r.jsonBody = .ok (.obj fs))
    (hid : jsonLookup fs "id" = none) :
    (execute_tool base env "hr_vacation_request" params).result =
      [("success", .bool true),
       ("message", .str "Vacation request created successfully"),
       ("booking_id", Json.null),
       ("employee_id", .str eid),
       ("start_date", .str sd),
       ("end_date", .str ed)] := by
  have hb : env (.post (base ++ "/api/vacations")
      (.obj [("employee_id", .str eid), ("start_date", .str sd),
             ("end_date", .str ed),
             ("reason", .str ((lookupParam params "reason").getD
                                "Personal time off")),
             ("status", .str "approved")])) = .ok r := henv
  unfold execute_tool executeToolBody
  simp [hp1, hp2, hp3, hb, hst, hj, hid]

/-- Witness for C9: a stub answering 201 with body `{"ok": true}` (no
`id`) produces `success: true` with a null `booking_id`. -/
theorem c9_booking_id_null_when_absent_witness :
    (execute_tool "http://hr-api:3000"
        (stubEnv ⟨201, "", .ok (.obj [("ok", .bool true)])⟩)
        "hr_vacation_request"
        [("employee_id", "EMP001"), ("start_date", "2025-07-02"),
         ("end_date", "2025-07-03")]).result =
      [("success", .bool true),
       ("message", .str "Vacation request created successfully"),
       ("booking_id", Json.null),
       ("employee_id", .str "EMP001"),
       ("start_date", .str "2025-07-02"),
       ("end_date", .str "2025-07-03")] :=
  c9_booking_id_null_when_absent "http://hr-api:3000"
    (stubEnv ⟨201, "", .ok (.obj [("ok", .bool true)])⟩)
    [("employee_id", "EMP001"), ("start_date", "2025-07-02"),
     ("end_date", "2025-07-03")]
    "EMP001" "2025-07-02" "2025-07-03"
    ⟨201, "", .ok (.obj [("ok", .bool true)])⟩
    [("ok", .bool true)]
    rfl rfl rfl rfl rfl rfl rfl

end HRReact
